import Mathlib

/-!
Shallow embedding of `src/PID.py`: a PID controller composed of a
midpoint-rule `Integrator` and a secant-slope `Differentiator`.

Modelling conventions:
* Python floats and `datetime` timestamps are modelled as rationals; the
  only timestamp operation the source uses is subtraction via
  `timedelta.total_seconds()`, which is zero exactly when the two
  timestamps coincide.
* Python exceptions are modelled with `Except Err`; Python float division
  by zero raises `ZeroDivisionError`, which the embedding makes explicit.
* `datetime.now()` inside `PIDController.get_output` is abstracted as an
  explicit `current_time` argument.
* Methods that may raise after partially mutating their object return the
  partially-updated state alongside the error where the source would leave
  the object in that partially-updated condition.
-/

/-- Python exceptions raised by the embedded code. -/
inductive Err where
  | valueError : Err
  | setpointNotSet : Err
  | zeroDivisionError : Err
  | keyError : Err
  | typeError : Err
  deriving DecidableEq

/-- `Gains = namedtuple("Gains", list("pid"))`: the three gain coefficients. -/
structure Gains where
  p : ℚ
  i : ℚ
  d : ℚ
  deriving DecidableEq

/-- The validation test of the gains setter:
`all(0 <= getattr(_gains, x) <= 100 for x in "pid")`. -/
def gainsValid (g : Gains) : Bool :=
  decide (0 ≤ g.p ∧ g.p ≤ 100 ∧ 0 ≤ g.i ∧ g.i ≤ 100 ∧ 0 ≤ g.d ∧ g.d ≤ 100)

/-- State of `Integrator`: approximation scheme string, optional last
integrand, accumulated value, optional last compute time. -/
structure Integrator where
  approximation_scheme : String
  last_integrand : Option ℚ
  value : ℚ
  last_compute_time : Option ℚ
  deriving DecidableEq

/-- `Integrator.__init__(initial_value, approximation_scheme)`. -/
def Integrator.init (initial_value : ℚ) (approximation_scheme : String) : Integrator :=
  { approximation_scheme := approximation_scheme
    last_integrand := none
    value := initial_value
    last_compute_time := none }

/-- `Integrator._compute_next_center_approx_riemann_sum_term`: if a last
compute time exists, add `0.5 * (integrand + last_integrand) * dt` to the
accumulated value; then store the new sample and return the accumulated
value.  Reading a `None` last integrand inside the guarded branch would be
a Python `TypeError`. -/
def Integrator.compute_next_center_approx_riemann_sum_term (s : Integrator)
    (integrand current_time : ℚ) : Except Err (ℚ × Integrator) :=
  match s.last_compute_time with
  | some last_time =>
      match s.last_integrand with
      | some last_integrand =>
          let average_integrand : ℚ := (1 / 2) * (integrand + last_integrand)
          let time_delta_s : ℚ := current_time - last_time
          let value' : ℚ := s.value + average_integrand * time_delta_s
          Except.ok (value',
            { s with value := value'
                     last_integrand := some integrand
                     last_compute_time := some current_time })
      | none => Except.error Err.typeError
  | none =>
      Except.ok (s.value,
        { s with last_integrand := some integrand
                 last_compute_time := some current_time })

/-- `Integrator.compute`: dispatch on the approximation-scheme string via a
one-entry lookup table; a missing key is a Python `KeyError`. -/
def Integrator.compute (s : Integrator) (integrand current_time : ℚ) :
    Except Err (ℚ × Integrator) :=
  if s.approximation_scheme = "center-approx" then
    s.compute_next_center_approx_riemann_sum_term integrand current_time
  else
    Except.error Err.keyError

/-- State of `Differentiator`: last value (a plain float, initialised to
the caller-supplied initial value) and optional last time. -/
structure Differentiator where
  last_value : ℚ
  last_time : Option ℚ
  deriving DecidableEq

/-- `Differentiator.__init__(initial_value)`. -/
def Differentiator.init (initial_value : ℚ) : Differentiator :=
  { last_value := initial_value, last_time := none }

/-- `Differentiator.compute`: with a prior sample, return
`(current_value - last_value) / dt` (Python raises `ZeroDivisionError` when
`dt` is zero, before the stores run); with no prior sample, return the
stored last value.  On success the new sample is stored. -/
def Differentiator.compute (s : Differentiator) (current_value current_time : ℚ) :
    Except Err (ℚ × Differentiator) :=
  match s.last_time with
  | some last_time =>
      let df : ℚ := current_value - s.last_value
      let dt : ℚ := current_time - last_time
      if dt = 0 then
        Except.error Err.zeroDivisionError
      else
        Except.ok (df / dt,
          { last_value := current_value, last_time := some current_time })
  | none =>
      Except.ok (s.last_value,
        { last_value := current_value, last_time := some current_time })

/-- State of `PIDController`: gains, optional setpoint, one integrator and
one differentiator. -/
structure PIDController where
  gains : Gains
  setpoint : Option ℚ
  integrator : Integrator
  differentiator : Differentiator
  deriving DecidableEq

/-- The `gains` property setter: validate the whole triple; on failure
raise `ValueError` and leave the stored gains unchanged. -/
def PIDController.set_gains (s : PIDController) (g : Gains) :
    Except Err Unit × PIDController :=
  if gainsValid g then (Except.ok (), { s with gains := g })
  else (Except.error Err.valueError, s)

/-- `PIDController.__init__(p_gain, i_gain, d_gain, setpoint)`: assigning
`self.gains` goes through the validating setter, so construction fails with
`ValueError` on an invalid triple; otherwise the controller gets a fresh
`Integrator(0.0, "center-approx")` and `Differentiator(0.0)`. -/
def PIDController.init (p_gain i_gain d_gain : ℚ) (setpoint : Option ℚ) :
    Except Err PIDController :=
  if gainsValid { p := p_gain, i := i_gain, d := d_gain } then
    Except.ok
      { gains := { p := p_gain, i := i_gain, d := d_gain }
        setpoint := setpoint
        integrator := Integrator.init 0 "center-approx"
        differentiator := Differentiator.init 0 }
  else
    Except.error Err.valueError

/-- `PIDController.get_output(input_value)` with the internally captured
`datetime.now()` abstracted as `current_time`.  The unset-setpoint check
runs first; then `error = setpoint - input_value` is fed with the timestamp
to the integrator and then the differentiator, and
`(p*e + i*I + d*D, e)` is returned.  An exception from the differentiator
leaves the already-updated integrator state in place, as in the source. -/
def PIDController.get_output (s : PIDController) (input_value current_time : ℚ) :
    Except Err (ℚ × ℚ) × PIDController :=
  match s.setpoint with
  | none => (Except.error Err.setpointNotSet, s)
  | some sp =>
      let current_error : ℚ := sp - input_value
      let p : ℚ := s.gains.p * current_error
      match s.integrator.compute current_error current_time with
      | Except.error e => (Except.error e, s)
      | Except.ok (ival, integrator') =>
          let i : ℚ := s.gains.i * ival
          match s.differentiator.compute current_error current_time with
          | Except.error e => (Except.error e, { s with integrator := integrator' })
          | Except.ok (dval, differentiator') =>
              let d : ℚ := s.gains.d * dval
              (Except.ok (p + i + d, current_error),
               { s with integrator := integrator'
                        differentiator := differentiator' })

/-- Claim C6: on a fresh `Differentiator` with initial value `v0`, the
first `compute(v, t)` stores the new sample `(v, t)` but returns the
previously stored baseline `v0`, not the new value argument. -/
theorem C6_differentiator_cold_start (v0 v t : ℚ) :
    (Differentiator.init v0).compute v t =
      Except.ok (v0, { last_value := v, last_time := some t }) := rfl

/-- Claim C1 counterexample: a `Differentiator` holding a prior sample at
time `0`, computed again at time `0` (so `dt == 0`), raises
`ZeroDivisionError` — it does not return any (non-finite) value. -/
theorem C1_counterexample :
    Differentiator.compute { last_value := 1, last_time := some 0 } 2 0 =
      Except.error Err.zeroDivisionError := by
  simp [Differentiator.compute]

/-- Claim C1 (amended): for every `Differentiator` holding a prior sample,
`compute(value, timestamp)` with the timestamp equal to the stored last
timestamp (so `dt == 0`) raises `ZeroDivisionError` from the unguarded
division; the zero-length interval is not internally guarded, and the
raise happens before the stores, leaving the sample unchanged. -/
theorem C1_dt_zero_raises (last_value current_value t : ℚ) :
    Differentiator.compute { last_value := last_value, last_time := some t }
      current_value t = Except.error Err.zeroDivisionError := by
  simp [Differentiator.compute]

/-- Claim C7: with a prior sample `(lv, lt)` and a strictly later timestamp
`t`, `compute(v, t)` returns the secant slope `(v - lv) / (t - lt)` and
overwrites the stored sample; concretely `compute(5, t0)` then
`compute(9, t0 + 2)` on a fresh instance with initial value `v0` returns
`v0` then `2`. -/
theorem C7_differentiator_slope :
    (∀ (lv lt v t : ℚ), lt < t →
        Differentiator.compute { last_value := lv, last_time := some lt } v t =
          Except.ok ((v - lv) / (t - lt),
            { last_value := v, last_time := some t })) ∧
    (∀ (v0 t0 : ℚ),
        (Differentiator.init v0).compute 5 t0 =
          Except.ok (v0, { last_value := 5, last_time := some t0 }) ∧
        Differentiator.compute { last_value := 5, last_time := some t0 } 9 (t0 + 2) =
          Except.ok (2, { last_value := 9, last_time := some (t0 + 2) })) := by
  constructor
  · intro lv lt v t hlt
    have hne : t - lt ≠ 0 := sub_ne_zero.mpr (ne_of_gt hlt)
    simp [Differentiator.compute, hne]
  · intro v0 t0
    refine ⟨rfl, ?_⟩
    have h2 : t0 + 2 - t0 = 2 := by ring
    simp [Differentiator.compute, h2]
    norm_num

/-- Claim C7 witness: the slope branch at the concrete prior sample
`(5, 0)` and new sample `(9, 2)` returns `2`, and the two-call scenario at
`v0 = 0`, `t0 = 0` returns `0` then `2`. -/
theorem C7_witness :
    Differentiator.compute { last_value := 5, last_time := some 0 } 9 2 =
      Except.ok (2, { last_value := 9, last_time := some 2 }) ∧
    ((Differentiator.init 0).compute 5 0 =
      Except.ok (0, { last_value := 5, last_time := some 0 }) ∧
     Differentiator.compute { last_value := 5, last_time := some 0 } 9 (0 + 2) =
      Except.ok (2, { last_value := 9, last_time := some (0 + 2) })) := by
  refine ⟨?_, C7_differentiator_slope.2 0 0⟩
  have h := C7_differentiator_slope.1 5 0 9 2 (by norm_num)
  norm_num at h
  exact h

/-- Claim C8: on a fresh `Integrator` with initial value `v0` (and the one
supported scheme), the first `compute(integrand, t)` stores the sample and
returns the accumulated value unchanged, i.e. the initial value, regardless
of the integrand argument. -/
theorem C8_integrator_cold_start (v0 integrand t : ℚ) :
    (Integrator.init v0 "center-approx").compute integrand t =
      Except.ok (v0,
        { approximation_scheme := "center-approx"
          last_integrand := some integrand
          value := v0
          last_compute_time := some t }) := rfl

/-- Claim C9: with a prior sample `(li, lt)`, `compute(integrand, t)` adds
`0.5 * (integrand + li) * (t - lt)` to the accumulated value, stores the
new sample and returns the updated value; concretely from initial value `0`
the calls `compute(2, t0)` then `compute(4, t0 + 1)` return `0` then `3`,
and a call with the stored timestamp adds a zero increment. -/
theorem C9_integrator_step :
    (∀ (v0 li lt integrand t : ℚ),
        Integrator.compute
          { approximation_scheme := "center-approx"
            last_integrand := some li
            value := v0
            last_compute_time := some lt } integrand t =
          Except.ok (v0 + 1 / 2 * (integrand + li) * (t - lt),
            { approximation_scheme := "center-approx"
              last_integrand := some integrand
              value := v0 + 1 / 2 * (integrand + li) * (t - lt)
              last_compute_time := some t })) ∧
    (∀ (t0 : ℚ),
        (Integrator.init 0 "center-approx").compute 2 t0 =
          Except.ok (0,
            { approximation_scheme := "center-approx"
              last_integrand := some 2
              value := 0
              last_compute_time := some t0 }) ∧
        Integrator.compute
          { approximation_scheme := "center-approx"
            last_integrand := some 2
            value := 0
            last_compute_time := some t0 } 4 (t0 + 1) =
          Except.ok (3,
            { approximation_scheme := "center-approx"
              last_integrand := some 4
              value := 3
              last_compute_time := some (t0 + 1) })) ∧
    (∀ (v0 li lt integrand : ℚ),
        Integrator.compute
          { approximation_scheme := "center-approx"
            last_integrand := some li
            value := v0
            last_compute_time := some lt } integrand lt =
          Except.ok (v0,
            { approximation_scheme := "center-approx"
              last_integrand := some integrand
              value := v0
              last_compute_time := some lt })) := by
  refine ⟨fun v0 li lt integrand t => rfl, ?_, ?_⟩
  · intro t0
    refine ⟨rfl, ?_⟩
    have h1 : t0 + 1 - t0 = 1 := by ring
    simp [Integrator.compute, Integrator.compute_next_center_approx_riemann_sum_term, h1]
    norm_num
  · intro v0 li lt integrand
    simp [Integrator.compute, Integrator.compute_next_center_approx_riemann_sum_term]

/-- Claim C2: replacing the gains triple with one in which any coefficient
lies outside `[0, 100]` fails with `ValueError` and returns the controller
state completely unchanged — the previous gains are retained and no partial
mutation of individual coefficients occurs. -/
theorem C2_set_gains_all_or_nothing (s : PIDController) (g : Gains)
    (h : g.p < 0 ∨ 100 < g.p ∨ g.i < 0 ∨ 100 < g.i ∨ g.d < 0 ∨ 100 < g.d) :
    s.set_gains g = (Except.error Err.valueError, s) := by
  have hv : gainsValid g = false := by
    have hn : ¬ (0 ≤ g.p ∧ g.p ≤ 100 ∧ 0 ≤ g.i ∧ g.i ≤ 100 ∧ 0 ≤ g.d ∧ g.d ≤ 100) := by
      rintro ⟨h1, h2, h3, h4, h5, h6⟩
      rcases h with h | h | h | h | h | h <;> linarith
    simp [gainsValid, hn]
  simp [PIDController.set_gains, hv]

/-- Claim C2 witness: a concrete controller with stored gains `(1, 1, 1)`
rejects the replacement `(101, 0, 0)` and is returned unchanged. -/
theorem C2_witness :
    PIDController.set_gains
      { gains := { p := 1, i := 1, d := 1 }
        setpoint := none
        integrator := Integrator.init 0 "center-approx"
        differentiator := Differentiator.init 0 }
      { p := 101, i := 0, d := 0 } =
    (Except.error Err.valueError,
      { gains := { p := 1, i := 1, d := 1 }
        setpoint := none
        integrator := Integrator.init 0 "center-approx"
        differentiator := Differentiator.init 0 }) :=
  C2_set_gains_all_or_nothing _ _ (Or.inr (Or.inl (by norm_num)))

/-- Claim C3: construction succeeds for every gain triple with all
coefficients in `[0, 100]` (with the setpoint optionally omitted, i.e. any
`Option` value), and fails with `ValueError` whenever at least one
coefficient lies outside `[0, 100]`. -/
theorem C3_init_validation (p_gain i_gain d_gain : ℚ) (setpoint : Option ℚ) :
    ((0 ≤ p_gain ∧ p_gain ≤ 100 ∧ 0 ≤ i_gain ∧ i_gain ≤ 100 ∧
        0 ≤ d_gain ∧ d_gain ≤ 100) →
      ∃ c, PIDController.init p_gain i_gain d_gain setpoint = Except.ok c) ∧
    ((p_gain < 0 ∨ 100 < p_gain ∨ i_gain < 0 ∨ 100 < i_gain ∨
        d_gain < 0 ∨ 100 < d_gain) →
      PIDController.init p_gain i_gain d_gain setpoint = Except.error Err.valueError) := by
  constructor
  · intro h
    have hv : gainsValid { p := p_gain, i := i_gain, d := d_gain } = true :=
      decide_eq_true h
    refine ⟨{ gains := { p := p_gain, i := i_gain, d := d_gain }
              setpoint := setpoint
              integrator := Integrator.init 0 "center-approx"
              differentiator := Differentiator.init 0 }, ?_⟩
    simp [PIDController.init, hv]
  · intro h
    have hv : gainsValid { p := p_gain, i := i_gain, d := d_gain } = false := by
      have hn : ¬ (0 ≤ p_gain ∧ p_gain ≤ 100 ∧ 0 ≤ i_gain ∧ i_gain ≤ 100 ∧
          0 ≤ d_gain ∧ d_gain ≤ 100) := by
        rintro ⟨h1, h2, h3, h4, h5, h6⟩
        rcases h with h | h | h | h | h | h <;> linarith
      simp [gainsValid, hn]
    simp [PIDController.init, hv]

/-- Claim C3 witness: construction with gains `(50, 50, 50)` and no
setpoint succeeds, while construction with gains `(101, 0, 0)` fails with
`ValueError`. -/
theorem C3_witness :
    (∃ c, PIDController.init 50 50 50 none = Except.ok c) ∧
    PIDController.init 101 0 0 none = Except.error Err.valueError :=
  ⟨(C3_init_validation 50 50 50 none).1 (by norm_num),
   (C3_init_validation 101 0 0 none).2 (Or.inr (Or.inl (by norm_num)))⟩

/-- Claim C4: with the setpoint unset, `get_output` fails with the
unset-setpoint error for every measured value (and every timestamp) — no
implicit default setpoint is substituted. -/
theorem C4_unset_setpoint (s : PIDController) (v t : ℚ)
    (h : s.setpoint = none) :
    (s.get_output v t).1 = Except.error Err.setpointNotSet := by
  rcases s with ⟨g, sp, integ, dif⟩
  have h' : sp = none := h
  subst h'
  rfl

/-- Claim C4 witness: a concrete controller with no setpoint rejects
`get_output 3` at time `5`. -/
theorem C4_witness :
    (PIDController.get_output
      { gains := { p := 2, i := 3, d := 4 }
        setpoint := none
        integrator := Integrator.init 0 "center-approx"
        differentiator := Differentiator.init 0 } 3 5).1 =
    Except.error Err.setpointNotSet :=
  C4_unset_setpoint _ 3 5 rfl

/-- Claim C10: a failing `get_output` call on a controller with no setpoint
is atomic — it returns the unset-setpoint error together with the entire
controller state exactly as it was (gains, setpoint, integrator value and
sample, differentiator sample all unchanged), because the check runs before
any accumulator is touched. -/
theorem C10_unset_setpoint_atomic (s : PIDController) (v t : ℚ)
    (h : s.setpoint = none) :
    s.get_output v t = (Except.error Err.setpointNotSet, s) := by
  rcases s with ⟨g, sp, integ, dif⟩
  have h' : sp = none := h
  subst h'
  rfl

/-- Claim C10 witness: a concrete controller with no setpoint and non-fresh
accumulator state is returned entirely unchanged by a failing call. -/
theorem C10_witness :
    PIDController.get_output
      { gains := { p := 7, i := 8, d := 9 }
        setpoint := none
        integrator :=
          { approximation_scheme := "center-approx"
            last_integrand := some 4
            value := 6
            last_compute_time := some 2 }
        differentiator := { last_value := 3, last_time := some 2 } } 1 5 =
    (Except.error Err.setpointNotSet,
      { gains := { p := 7, i := 8, d := 9 }
        setpoint := none
        integrator :=
          { approximation_scheme := "center-approx"
            last_integrand := some 4
            value := 6
            last_compute_time := some 2 }
        differentiator := { last_value := 3, last_time := some 2 } }) :=
  C10_unset_setpoint_atomic _ 1 5 rfl

/-- Claim C5: with the setpoint set, `get_output(v)` at timestamp `t`
computes `error = setpoint - v`, feeds that error with `t` to both
accumulators, and returns
`(p_gain * error + i_gain * I + d_gain * D, error)` together with the
advanced accumulator states, where `I` and `D` are the integrator's and
differentiator's compute results; in particular a fresh controller built
with `p = 10, i = 0, d = 0, setpoint = 1` returns `(10, 1)` from its very
first `get_output 0` at any timestamp. -/
theorem C5_get_output_formula :
    (∀ (s : PIDController) (sp v t ival dval : ℚ)
        (integrator' : Integrator) (differentiator' : Differentiator),
        s.setpoint = some sp →
        s.integrator.compute (sp - v) t = Except.ok (ival, integrator') →
        s.differentiator.compute (sp - v) t = Except.ok (dval, differentiator') →
        s.get_output v t =
          (Except.ok (s.gains.p * (sp - v) + s.gains.i * ival + s.gains.d * dval,
              sp - v),
           { s with integrator := integrator'
                    differentiator := differentiator' })) ∧
    (∀ (c : PIDController) (t : ℚ),
        PIDController.init 10 0 0 (some 1) = Except.ok c →
        (c.get_output 0 t).1 = Except.ok (10, 1)) := by
  constructor
  · rintro ⟨g, sp0, integ, dif⟩ sp v t ival dval integrator' differentiator' h hI hD
    have h' : sp0 = some sp := h
    subst h'
    have hI' : integ.compute (sp - v) t = Except.ok (ival, integrator') := hI
    have hD' : dif.compute (sp - v) t = Except.ok (dval, differentiator') := hD
    simp [PIDController.get_output, hI', hD']
  · intro c t h
    have h0 : PIDController.init 10 0 0 (some 1) =
        Except.ok
          { gains := { p := 10, i := 0, d := 0 }
            setpoint := some 1
            integrator := Integrator.init 0 "center-approx"
            differentiator := Differentiator.init 0 } := by
      norm_num [PIDController.init, gainsValid]
    rw [h0] at h
    cases h
    simp [PIDController.get_output, Integrator.compute, Integrator.init,
      Integrator.compute_next_center_approx_riemann_sum_term,
      Differentiator.compute, Differentiator.init]

/-- Claim C5 witness: the formula at a concrete mid-run controller state
(both conjuncts instantiated at concrete inputs, all hypotheses
discharged): gains `(2, 3, 4)`, setpoint `7`, both accumulators holding a
sample at time `1`, measured value `5` at time `3`; and the fresh
`(10, 0, 0, setpoint 1)` controller returning `(10, 1)` at time `0`. -/
theorem C5_witness :
    (PIDController.get_output
      { gains := { p := 2, i := 3, d := 4 }
        setpoint := some 7
        integrator :=
          { approximation_scheme := "center-approx"
            last_integrand := some 0
            value := 0
            last_compute_time := some 1 }
        differentiator := { last_value := 0, last_time := some 1 } } 5 3 =
      (Except.ok (2 * (7 - 5) + 3 * 2 + 4 * 1, 7 - 5),
        { gains := { p := 2, i := 3, d := 4 }
          setpoint := some 7
          integrator :=
            { approximation_scheme := "center-approx"
              last_integrand := some 2
              value := 2
              last_compute_time := some 3 }
          differentiator := { last_value := 2, last_time := some 3 } })) ∧
    (PIDController.get_output
      { gains := { p := 10, i := 0, d := 0 }
        setpoint := some 1
        integrator := Integrator.init 0 "center-approx"
        differentiator := Differentiator.init 0 } 0 0).1 = Except.ok (10, 1) := by
  constructor
  · have h := C5_get_output_formula.1
      { gains := { p := 2, i := 3, d := 4 }
        setpoint := some 7
        integrator :=
          { approximation_scheme := "center-approx"
            last_integrand := some 0
            value := 0
            last_compute_time := some 1 }
        differentiator := { last_value := 0, last_time := some 1 } }
      7 5 3 2 1
      { approximation_scheme := "center-approx"
        last_integrand := some 2
        value := 2
        last_compute_time := some 3 }
      { last_value := 2, last_time := some 3 }
      rfl (by norm_num [Integrator.compute,
        Integrator.compute_next_center_approx_riemann_sum_term])
      (by norm_num [Differentiator.compute])
    exact h
  · exact C5_get_output_formula.2
      { gains := { p := 10, i := 0, d := 0 }
        setpoint := some 1
        integrator := Integrator.init 0 "center-approx"
        differentiator := Differentiator.init 0 } 0
      (by norm_num [PIDController.init, gainsValid])
